import Mathlib

/-!
Verification of the dashboard client `src/static/js/app.js` of the
inverter-simulator repository.  JavaScript numbers are modelled as
rationals (`ℚ`) with `toFixed` as exact decimal rounding; JSON-level
optionality is modelled with `Option`; the DOM regions each function
writes are modelled as explicit record states.  Environment-dependent
string conversions (`Date.toLocaleTimeString`) are abstracted as a
formatting parameter.
-/

/-- Split a list of characters at spaces (DOM class-token splitting). -/
def splitSpacesAux : List Char → List (List Char)
  | [] => [[]]
  | c :: cs =>
    if c = ' ' then [] :: splitSpacesAux cs
    else
      match splitSpacesAux cs with
      | [] => [[c]]
      | w :: ws => (c :: w) :: ws

/-- The class tokens of a DOM `className` string: split at spaces. -/
def classTokens (s : String) : List String :=
  (splitSpacesAux s.data).map String.mk

/-- Join a list of strings with a separator between successive elements. -/
def joinSep (sep : String) : List String → String
  | [] => ""
  | [x] => x
  | x :: y :: xs => x ++ sep ++ joinSep sep (y :: xs)

/-- JavaScript `s || d` for a possibly-absent string: the default is used
when the field is absent *or* the empty string (falsy). -/
def jsOr (o : Option String) (d : String) : String :=
  match o with
  | some s => if s = "" then d else s
  | none => d

/-- JavaScript `n || d`-rendering for a possibly-absent number shown as
text: `0` is falsy, so both absence and `0` fall back to `d`. -/
def jsOrNat (o : Option Nat) (d : String) : String :=
  match o with
  | some n => if n = 0 then d else toString n
  | none => d

/-- JavaScript `Number.prototype.toFixed f` on an exact rational:
round `q·10^f` to the nearest integer, ties to the larger, and print
with `f` digits after the point.  The rounded integer
`⌊q·10^f + 1/2⌋` is computed on the numerator and denominator as
`(2·num·10^f + den) ediv (2·den)`, which is the same floor since the
denominator is positive. -/
def toFixed (f : Nat) (q : ℚ) : String :=
  let n : ℤ := Int.ediv (2 * q.num * 10 ^ f + (q.den : ℤ)) (2 * (q.den : ℤ))
  let ds := Nat.toDigits 10 n.natAbs
  let ds := if ds.length < f + 1 then
      List.replicate (f + 1 - ds.length) '0' ++ ds
    else ds
  (if n < 0 then "-" else "") ++
    (if f = 0 then String.mk ds
     else String.mk (ds.take (ds.length - f)) ++ "." ++ String.mk (ds.drop (ds.length - f)))

/-! ## Modbus health (`updateModbusStatus`, app.js lines 470–532) -/

/-- The `data.status` object of the `/api/modbus/status` payload. -/
structure ModbusStatusInfo where
  port : Option String
  baudrate : Option Nat
  num_slaves : Option Nat
  is_running : Bool
  deriving Repr, DecidableEq

/-- The `ModbusHealth` payload of `/api/modbus/status`. -/
structure ModbusHealth where
  available : Bool
  actually_connected : Bool
  port_available : Bool
  server_running : Bool
  status : ModbusStatusInfo
  port_error : Option String
  warning : Option String
  error_detail : Option String
  message : Option String
  deriving Repr, DecidableEq

/-- What one health cycle writes to its DOM region: the indicator text,
class and tooltip (`none` when the branch does not assign `title`), the
port/baudrate/slave-count labels, and the alert action (`some m` =
`showModbusAlert m`, `none` = `hideModbusAlert`). -/
structure HealthRender where
  indicatorText : String
  indicatorClass : String
  indicatorTitle : Option String
  portText : String
  baudrateText : String
  slavesText : String
  alert : Option String
  deriving Repr, DecidableEq

/-- Shallow embedding of the branch logic of `updateModbusStatus`
(app.js lines 480–527): nested `if`s exactly as in the source. -/
def updateModbusStatusRender (data : ModbusHealth) : HealthRender :=
  if data.available then
    let status := data.status
    let portText := jsOr status.port "-"
    let baudrateText := jsOrNat status.baudrate "-"
    let slavesText := toString (status.num_slaves.getD 0)
    if !data.actually_connected then
      if !data.port_available then
        { indicatorText := "포트 없음"
          indicatorClass := "status-indicator error"
          indicatorTitle := some (jsOr data.port_error "시리얼 포트가 연결되어 있지 않습니다.")
          portText := portText, baudrateText := baudrateText, slavesText := slavesText
          alert := some ("포트 연결 실패: " ++ jsOr data.port_error "시리얼 포트를 찾을 수 없습니다.") }
      else if !data.server_running then
        { indicatorText := "서버 중지"
          indicatorClass := "status-indicator stopped"
          indicatorTitle := some "Modbus 서버가 실행되지 않았습니다."
          portText := portText, baudrateText := baudrateText, slavesText := slavesText
          alert := some "Modbus RTU 서버가 실행되지 않았습니다." }
      else
        { indicatorText := "연결 안됨"
          indicatorClass := "status-indicator error"
          indicatorTitle := some (jsOr data.warning "RTU와 통신할 수 없습니다.")
          portText := portText, baudrateText := baudrateText, slavesText := slavesText
          alert := some (jsOr data.warning "RTU와 통신할 수 없습니다.") }
    else if status.is_running && data.port_available then
      { indicatorText := "실행 중"
        indicatorClass := "status-indicator running"
        indicatorTitle := none
        portText := portText, baudrateText := baudrateText, slavesText := slavesText
        alert := none }
    else
      { indicatorText := "중지됨"
        indicatorClass := "status-indicator stopped"
        indicatorTitle := none
        portText := portText, baudrateText := baudrateText, slavesText := slavesText
        alert := none }
  else
    { indicatorText := "초기화 실패"
      indicatorClass := "status-indicator error"
      indicatorTitle := some (jsOr data.error_detail (jsOr data.message "undefined"))
      portText := "-", baudrateText := "-", slavesText := "0"
      alert := some (jsOr data.error_detail
        (jsOr data.message "Modbus RTU Manager 초기화 실패")) }

/-- The six leaves of the §4.3 decision tree. -/
inductive HealthBranch where
  | initFailed
  | noPort
  | serverStopped
  | notConnected
  | running
  | stopped
  deriving Repr, DecidableEq

/-- The §4.3 decision tree as a flat, first-match-wins priority list, in
the spec's exact order: 1. `available==false`; 2a/2b/2c under
`available && !actually_connected`; 3. `actually_connected &&
status.is_running && port_available`; 4. everything else. -/
def specHealthBranch (h : ModbusHealth) : HealthBranch :=
  if h.available = false then .initFailed
  else if h.available && !h.actually_connected then
    (if !h.port_available then .noPort
     else if !h.server_running then .serverStopped
     else .notConnected)
  else if h.actually_connected && h.status.is_running && h.port_available then .running
  else .stopped

/-- The indicator text, indicator class, and alert action each branch of
§4.3 specifies. -/
def branchIndicatorAlert (b : HealthBranch) (h : ModbusHealth) :
    String × String × Option String :=
  match b with
  | .initFailed => ("초기화 실패", "status-indicator error",
      some (jsOr h.error_detail (jsOr h.message "Modbus RTU Manager 초기화 실패")))
  | .noPort => ("포트 없음", "status-indicator error",
      some ("포트 연결 실패: " ++ jsOr h.port_error "시리얼 포트를 찾을 수 없습니다."))
  | .serverStopped => ("서버 중지", "status-indicator stopped",
      some "Modbus RTU 서버가 실행되지 않았습니다.")
  | .notConnected => ("연결 안됨", "status-indicator error",
      some (jsOr h.warning "RTU와 통신할 수 없습니다."))
  | .running => ("실행 중", "status-indicator running", none)
  | .stopped => ("중지됨", "status-indicator stopped", none)

/-- The scenario record of the claim: `{available:true,
actually_connected:false, port_available:false, port_error:"COM3 busy"}`. -/
def healthScenario : ModbusHealth :=
  { available := true
    actually_connected := false
    port_available := false
    server_running := true
    status := { port := some "COM3", baudrate := some 9600,
                num_slaves := some 1, is_running := true }
    port_error := some "COM3 busy"
    warning := none
    error_detail := none
    message := none }

/-! ## Modbus log (`updateModbusLog`, app.js lines 606–652) -/

/-- One record of the `/api/modbus/log` response. -/
structure LogEntry where
  event_type : String
  slave_id : Nat
  function_code : Nat
  function_name : Option String
  address : Option Int
  quantity : Option Nat
  values : Option (List Int)
  error : Option String
  success : Bool
  timestamp : Int
  deriving Repr, DecidableEq

/-- The rendered form of one log entry. -/
structure LogEntryRender where
  cls : String
  time : String
  content : String
  successMark : String
  detail : Option String
  deriving Repr, DecidableEq

/-- The `detail` string of one log entry, assembled by the `detail +=`
chain of app.js lines 622–634: the address part carries no separator,
every later part carries a leading `", "`, and JavaScript truthiness
skips a zero quantity, an empty values array and an empty error
string. -/
def logDetail (log : LogEntry) : String :=
  (match log.address with
    | some a => "주소: " ++ toString a
    | none => "") ++
  (match log.quantity with
    | some q => if q = 0 then "" else ", 수량: " ++ toString q
    | none => "") ++
  (match log.values with
    | some vs => if vs.length > 0 then
        ", 값: [" ++ String.intercalate ", " (vs.map toString) ++ "]"
      else ""
    | none => "") ++
  (match log.error with
    | some e => if e = "" then "" else ", 오류: " ++ e
    | none => "")

/-- Rendering of one log entry (the loop body of `updateModbusLog`),
with `Date.toLocaleTimeString` abstracted as `fmt`. -/
def renderLogEntry (fmt : Int → String) (log : LogEntry) : LogEntryRender :=
  let functionName := jsOr log.function_name ("Function " ++ toString log.function_code)
  let detail := logDetail log
  { cls := "log-entry " ++ log.event_type
    time := fmt log.timestamp
    content := "[" ++ log.event_type.toUpper ++ "] 슬레이브 "
      ++ toString log.slave_id ++ " - " ++ functionName
    successMark := if log.success then "✓" else "✗"
    detail := if detail = "" then none else some detail }

/-- The rendered log pane: either the "no logs" placeholder or a list of
entries, newest first. -/
inductive LogRender where
  | placeholder
  | entries (es : List LogEntryRender)
  deriving Repr, DecidableEq

/-- Shallow embedding of `updateModbusLog` after a successful fetch:
`data.logs` missing or empty renders the placeholder, otherwise the
batch is reversed and rendered entry by entry. -/
def updateModbusLogRender (fmt : Int → String) (logs : Option (List LogEntry)) :
    LogRender :=
  match logs with
  | some l =>
    if l.length > 0 then .entries (l.reverse.map (renderLogEntry fmt))
    else .placeholder
  | none => .placeholder

/-- The detail line exactly as the claim states it: the optional fields
present in the record (present = the key is there), in the fixed order
address, quantity, values, error, joined by `", "`; `none` when no
optional field is present. -/
def claimDetail (log : LogEntry) : Option String :=
  let fields :=
    (match log.address with
      | some a => ["주소: " ++ toString a]
      | none => []) ++
    (match log.quantity with
      | some q => ["수량: " ++ toString q]
      | none => []) ++
    (match log.values with
      | some vs => ["값: [" ++ String.intercalate ", " (vs.map toString) ++ "]"]
      | none => []) ++
    (match log.error with
      | some e => ["오류: " ++ e]
      | none => [])
  if fields.isEmpty then none else some (joinSep ", " fields)

/-- The detail line as the amended claim states it: a field is rendered
iff it is present *and truthy* (address non-null, quantity nonzero,
values nonempty, error a nonempty string); the rendered address chunk is
bare and every later rendered chunk is preceded by `", "`, so the line
starts with `", "` whenever the address is absent but a later field
renders; the line is omitted when nothing renders. -/
def amendedDetail (log : LogEntry) : Option String :=
  let later :=
    (match log.quantity with
      | some q => if q = 0 then [] else ["수량: " ++ toString q]
      | none => []) ++
    (match log.values with
      | some vs => if vs.length > 0 then
          ["값: [" ++ String.intercalate ", " (vs.map toString) ++ "]"]
        else []
      | none => []) ++
    (match log.error with
      | some e => if e = "" then [] else ["오류: " ++ e]
      | none => [])
  match log.address, later with
  | none, [] => none
  | none, l => some (String.join (l.map (", " ++ ·)))
  | some a, l => some (joinSep ", " (("주소: " ++ toString a) :: l))

/-- The record refuting the claim's reading of the detail line:
no address, quantity 5, an empty values array. -/
def logCounterexampleRecord : LogEntry :=
  { event_type := "read"
    slave_id := 1
    function_code := 3
    function_name := some "Read Holding Registers"
    address := none
    quantity := some 5
    values := some []
    error := none
    success := true
    timestamp := 0 }

/-- A second concrete log record, with all optional fields rendered. -/
def logWitnessRecord : LogEntry :=
  { event_type := "write"
    slave_id := 2
    function_code := 16
    function_name := none
    address := some 100
    quantity := some 2
    values := some [1, 2]
    error := none
    success := true
    timestamp := 1000 }

/-! ## Status poller (`updateStatus` / `updateUI` / `createInverterCard`,
app.js lines 114–230) -/

/-- The `total_power` object of the `PlantSnapshot`. -/
structure TotalPower where
  total_active_power_kw : ℚ
  utilization_percent : ℚ
  total_reactive_power_kvar : ℚ
  deriving Repr, DecidableEq

/-- The `monitoring` object of an `InverterState`. -/
structure InverterMonitoring where
  active_power : ℚ
  output_voltage : ℚ
  output_current : ℚ
  power_factor : ℚ
  efficiency : ℚ
  deriving Repr, DecidableEq

/-- One element of `inverters`. -/
structure InverterState where
  id : String
  is_on : Bool
  monitoring : InverterMonitoring
  deriving Repr, DecidableEq

/-- The `monitoring` object of a `PvState`. -/
structure PvMonitoring where
  power_generation : ℚ
  voltage : ℚ
  current : ℚ
  deriving Repr, DecidableEq

/-- One element of `pv_generators`. -/
structure PvState where
  control_mode : String
  p_control_percent : ℚ
  monitoring : PvMonitoring
  deriving Repr, DecidableEq

/-- The rendered inverter card: the strings `createInverterCard`
interpolates into its markup (formatted with the `toFixed` precision the
source uses), the selected control-mode option, and the P-control input
value. -/
structure InverterCard where
  className : String
  title : String
  badge : String
  pvPower : String
  pvVoltage : String
  pvCurrent : String
  activePower : String
  outputVoltage : String
  outputCurrent : String
  powerFactor : String
  efficiency : String
  mpptSelected : Bool
  pControlSelected : Bool
  pControlValue : ℚ
  index : Nat
  deriving Repr, DecidableEq

/-- Shallow embedding of `createInverterCard` (app.js lines 156–230). -/
def createInverterCard (inverter : InverterState) (pvGen : PvState)
    (index : Nat) : InverterCard :=
  let monitoring := inverter.monitoring
  let pvMonitoring := pvGen.monitoring
  { className := "inverter-card " ++ (if inverter.is_on then "on" else "off")
    title := inverter.id
    badge := if inverter.is_on then "ON" else "OFF"
    pvPower := toFixed 2 pvMonitoring.power_generation
    pvVoltage := toFixed 1 pvMonitoring.voltage
    pvCurrent := toFixed 2 pvMonitoring.current
    activePower := toFixed 2 monitoring.active_power
    outputVoltage := toFixed 1 monitoring.output_voltage
    outputCurrent := toFixed 2 monitoring.output_current
    powerFactor := toFixed 3 monitoring.power_factor
    efficiency := toFixed 1 monitoring.efficiency
    mpptSelected := pvGen.control_mode = "MPPT"
    pControlSelected := pvGen.control_mode = "P_CONTROL"
    pControlValue := pvGen.p_control_percent
    index := index }

/-- The JSON payload of `/api/status` as the client sees it: each
top-level key may be missing.  (A missing key is JavaScript `undefined`;
dereferencing it throws a `TypeError`.) -/
structure StatusJson where
  plant_id : Option String
  total_power : Option TotalPower
  total_capacity_mva : Option ℚ
  inverters : Option (List InverterState)
  pv_generators : Option (List PvState)
  deriving Repr, DecidableEq

/-- The DOM region owned by the Status poller. -/
structure UIState where
  plantId : String
  updateTime : String
  totalPower : String
  utilization : String
  reactivePower : String
  ratedCapacity : String
  cards : List InverterCard
  deriving Repr, DecidableEq

/-- The `inverters.forEach` loop of `updateInverterCards` started at
`index`: appends one card per inverter; reading `pvGenerators[index]` of
an absent array, or `pvGen.monitoring` of an out-of-range (undefined)
element, throws — the flag records whether the loop threw, and the list
holds the cards appended before the throw. -/
def buildCardsGo (pvOpt : Option (List PvState)) :
    List InverterState → Nat → List InverterCard × Bool
  | [], _ => ([], false)
  | inverter :: rest, index =>
    match pvOpt with
    | none => ([], true)
    | some pvGenerators =>
      match pvGenerators[index]? with
      | none => ([], true)
      | some pvGen =>
        let r := buildCardsGo pvOpt rest (index + 1)
        (createInverterCard inverter pvGen index :: r.1, r.2)

/-- Shallow embedding of `updateInverterCards` (app.js lines 142–153):
the grid is cleared first, then cards are appended until done or a
throw — so even `inverters.forEach` throwing on an absent array leaves
the grid cleared. -/
def updateInverterCards (invOpt : Option (List InverterState))
    (pvOpt : Option (List PvState)) : List InverterCard × Bool :=
  match invOpt with
  | none => ([], true)
  | some inverters => buildCardsGo pvOpt inverters 0

/-- Shallow embedding of `updateUI` (app.js lines 125–139) with its DOM
writes in source order; the Bool records whether a `TypeError` was
thrown partway (dereferencing a missing key), in which case the returned
state holds exactly the writes made before the throw.  `new
Date().toLocaleTimeString()` is abstracted as `now`; a missing
`plant_id` interpolates as the string `"undefined"`, as in JavaScript
template literals. -/
def updateUI (data : StatusJson) (now : String) (s : UIState) : UIState × Bool :=
  let s := { s with plantId := "발전소: " ++ data.plant_id.getD "undefined" }
  let s := { s with updateTime := "업데이트: " ++ now }
  match data.total_power with
  | none => (s, true)
  | some totalPower =>
    let s := { s with
      totalPower := toFixed 2 totalPower.total_active_power_kw
      utilization := toFixed 2 totalPower.utilization_percent
      reactivePower := toFixed 2 totalPower.total_reactive_power_kvar }
    match data.total_capacity_mva with
    | none => (s, true)
    | some cap =>
      let s := { s with ratedCapacity := toFixed 2 cap }
      let r := updateInverterCards data.inverters data.pv_generators
      ({ s with cards := r.1 }, r.2)

/-- Shallow embedding of `updateStatus` (app.js lines 114–122): a
transport failure (rejected fetch or JSON parse failure) reaches the
`catch` before any DOM write; a parsed payload is rendered by
`updateUI`, whose throw (if any) is swallowed by the same `catch`. -/
def updateStatus (r : Except String StatusJson) (now : String) (s : UIState) :
    UIState :=
  match r with
  | .error _ => s
  | .ok data => (updateUI data now s).1

/-- A well-formed `PlantSnapshot` (every key present). -/
structure PlantSnapshot where
  plant_id : String
  total_power : TotalPower
  total_capacity_mva : ℚ
  inverters : List InverterState
  pv_generators : List PvState
  deriving Repr, DecidableEq

/-- The JSON payload a well-formed snapshot arrives as. -/
def toStatusJson (snap : PlantSnapshot) : StatusJson :=
  { plant_id := some snap.plant_id
    total_power := some snap.total_power
    total_capacity_mva := some snap.total_capacity_mva
    inverters := some snap.inverters
    pv_generators := some snap.pv_generators }

/-- A concrete previously-rendered state, used to exhibit what a failed
poll leaves behind. -/
def uiStatePrior : UIState :=
  { plantId := "발전소: PLANT-1"
    updateTime := "업데이트: 10:00:00"
    totalPower := "10.00"
    utilization := "50.00"
    reactivePower := "1.00"
    ratedCapacity := "2.00"
    cards := [] }

/-- A payload that parses as JSON but is not a `PlantSnapshot`: it has a
`plant_id` but no `total_power`, so `updateUI` throws after its first
two DOM writes. -/
def badStatusPayload : StatusJson :=
  { plant_id := some "PLANT-2"
    total_power := none
    total_capacity_mva := none
    inverters := none
    pv_generators := none }

/-! ## Command dispatch (`controlInverter` app.js lines 233–250,
`setPControl` lines 321–342) -/

/-- The observable outcome of the `fetch`/`json()` pair of a command
POST: a parsed `{success, message}` response, or a transport-level
failure (network error or non-JSON body) with its description. -/
inductive CmdOutcome where
  | resp (success : Bool) (message : String)
  | transportError (description : String)
  deriving Repr, DecidableEq

/-- What a command handler does: the notification it shows (message and
type) and how many out-of-band Status refreshes it triggers.  The
handlers are total functions of the outcome — the `catch` swallows every
transport failure, so nothing propagates past the handler. -/
structure DispatchResult where
  notification : String
  notificationType : String
  statusRefreshes : Nat
  deriving Repr, DecidableEq

/-- Shallow embedding of `controlInverter` (app.js lines 233–250). -/
def controlInverter (index : Nat) (action : String) (o : CmdOutcome) :
    DispatchResult :=
  match o with
  | .resp true m => { notification := m, notificationType := "success", statusRefreshes := 1 }
  | .resp false m => { notification := m, notificationType := "error", statusRefreshes := 0 }
  | .transportError d =>
    { notification := "제어 오류: " ++ d, notificationType := "error", statusRefreshes := 0 }

/-- Shallow embedding of `setPControl` (app.js lines 321–342); `percent`
is the parsed input-field value sent in the request body. -/
def setPControl (index : Nat) (percent : ℚ) (o : CmdOutcome) :
    DispatchResult :=
  match o with
  | .resp true m => { notification := m, notificationType := "success", statusRefreshes := 1 }
  | .resp false m => { notification := m, notificationType := "error", statusRefreshes := 0 }
  | .transportError d =>
    { notification := "P 제어 설정 오류: " ++ d, notificationType := "error", statusRefreshes := 0 }

/-! ## Alert banner (`showModbusAlert` / `hideModbusAlert`,
app.js lines 535–564) -/

/-- The DOM around the alert banner: the banners currently inserted in
the modbus section (identified by creation ids, newest first) and the
module-level slot `modbusAlertElement`. -/
structure AlertState where
  banners : List (Nat × String)
  slot : Option Nat
  next : Nat
  deriving Repr, DecidableEq

/-- Shallow embedding of `showModbusAlert`: remove the element the slot
points at (if any), create a fresh banner, insert it first, and point
the slot at it. -/
def showModbusAlert (message : String) (s : AlertState) : AlertState :=
  let banners :=
    match s.slot with
    | some id => s.banners.filter (fun b => b.1 != id)
    | none => s.banners
  { banners := (s.next, message) :: banners
    slot := some s.next
    next := s.next + 1 }

/-- Shallow embedding of `hideModbusAlert`: remove the element the slot
points at and clear the slot; a no-op when the slot is empty. -/
def hideModbusAlert (s : AlertState) : AlertState :=
  match s.slot with
  | some id =>
    { banners := s.banners.filter (fun b => b.1 != id), slot := none, next := s.next }
  | none => s

/-- The two alert operations every code path performs. -/
inductive AlertOp where
  | showOp (message : String)
  | hideOp
  deriving Repr, DecidableEq

/-- The page's initial alert state: no banner, empty slot. -/
def initialAlertState : AlertState :=
  { banners := [], slot := none, next := 0 }

/-- Apply one alert operation. -/
def applyAlertOp (s : AlertState) : AlertOp → AlertState
  | .showOp m => showModbusAlert m s
  | .hideOp => hideModbusAlert s

/-- Run a sequence of alert operations from a state. -/
def runAlertOps (ops : List AlertOp) (s : AlertState) : AlertState :=
  ops.foldl applyAlertOp s

/-- The fixed message of the health poller's `catch` handler. -/
def modbusFetchErrorMessage : String := "Modbus 상태 조회 중 오류가 발생했습니다."

/-- The alert effect of one full `updateModbusStatus` cycle: a transport
failure always shows the fixed generic alert; a parsed payload shows or
hides according to the decision tree. -/
def updateModbusStatusAlert (r : Except String ModbusHealth) (s : AlertState) :
    AlertState :=
  match r with
  | .error _ => showModbusAlert modbusFetchErrorMessage s
  | .ok data =>
    match (updateModbusStatusRender data).alert with
    | some m => showModbusAlert m s
    | none => hideModbusAlert s

/-! ## Chart poller (`updateChart`, app.js lines 417–436) -/

/-- One point of the `/api/timeseries` response. -/
structure TimeSeriesPoint where
  timestamp : Int
  power_kw : ℚ
  deriving Repr, DecidableEq

/-- The chart's mutable state: label list, data list, and the mode of
the last redraw (`some "none"` = redrawn without animation). -/
structure ChartState where
  labels : List String
  chartData : List ℚ
  lastUpdateMode : Option String
  deriving Repr, DecidableEq

/-- Shallow embedding of `updateChart` (app.js lines 417–436):
`fmt` abstracts `new Date(·).toLocaleTimeString('ko-KR', …)` applied to
the epoch-milliseconds value `timestamp * 1000`. -/
def updateChart (fmt : Int → String)
    (r : Except String (Option (List TimeSeriesPoint))) (chart : ChartState) :
    ChartState :=
  match r with
  | .error _ => chart
  | .ok od =>
    match od with
    | some points =>
      if points.length > 0 then
        { labels := points.map (fun item => fmt (item.timestamp * 1000))
          chartData := points.map (fun item => item.power_kw)
          lastUpdateMode := some "none" }
      else chart
    | none => chart

/-! ## Hourly history (`updateHourlyData`, app.js lines 439–467) -/

/-- One record of the `/api/hourly` response. -/
structure HourlyRecord where
  hour : String
  accumulated_kwh : ℚ
  deriving Repr, DecidableEq

/-- The rendered hourly pane: rows (label, kWh to two decimals) or the
"no data" placeholder. -/
inductive HourlyRender where
  | placeholder
  | rows (rs : List (String × String))
  deriving Repr, DecidableEq

/-- The row rendered for one hourly record. -/
def renderHourlyItem (item : HourlyRecord) : String × String :=
  (item.hour, toFixed 2 item.accumulated_kwh)

/-- Shallow embedding of `updateHourlyData` after a successful fetch:
`hourly_data.slice(-24)` keeps the last 24 entries (all of them when
fewer); a missing or empty array renders the placeholder. -/
def updateHourlyData (hd : Option (List HourlyRecord)) : HourlyRender :=
  match hd with
  | some l =>
    if l.length > 0 then .rows ((l.drop (l.length - 24)).map renderHourlyItem)
    else .placeholder
  | none => .placeholder

/-- The scenario input of C6: thirty hourly records labelled 1..30. -/
def hourly30 : List HourlyRecord :=
  (List.range 30).map (fun i => { hour := Nat.repr (i + 1), accumulated_kwh := mkRat i 1 })

/-- The reachable-state invariant of the alert slot: the DOM holds
exactly the banner the slot points at, or none. -/
def AlertInv (s : AlertState) : Prop :=
  (s.banners = [] ∧ s.slot = none) ∨
  ∃ id m, s.banners = [(id, m)] ∧ s.slot = some id

/-- The scenario snapshot of C7: one inverter, total active power
123.456 kW. -/
def snapshotScenario : PlantSnapshot :=
  { plant_id := "PLANT-1"
    total_power := { total_active_power_kw := mkRat 123456 1000
                     utilization_percent := mkRat 50 1
                     total_reactive_power_kvar := mkRat 3 2 }
    total_capacity_mva := mkRat 2 1
    inverters := [{ id := "INV-1", is_on := true,
                    monitoring := { active_power := mkRat 10 1,
                                    output_voltage := mkRat 220 1,
                                    output_current := mkRat 5 1,
                                    power_factor := mkRat 99 100,
                                    efficiency := mkRat 97 1 } }]
    pv_generators := [{ control_mode := "MPPT", p_control_percent := mkRat 100 1,
                        monitoring := { power_generation := mkRat 11 1,
                                        voltage := mkRat 600 1,
                                        current := mkRat 9 1 } }] }

/-! ## Theorems -/

/-- C1: the Modbus health rendering is a pure, deterministic function of
the health payload, evaluated as the first-match-wins decision tree of
§4.3: for every `ModbusHealth` value the indicator text/class and the
alert action (shown with the branch's message, or hidden) are exactly
those of the branch `specHealthBranch` selects; in particular the
scenario `{available:true, actually_connected:false,
port_available:false, port_error:"COM3 busy"}` renders an indicator
whose class list contains `error` and shows the alert
`"포트 연결 실패: COM3 busy"`. -/
theorem health_render_matches_spec_tree :
    (∀ h : ModbusHealth,
      ((updateModbusStatusRender h).indicatorText,
       (updateModbusStatusRender h).indicatorClass,
       (updateModbusStatusRender h).alert)
        = branchIndicatorAlert (specHealthBranch h) h) ∧
    classTokens (updateModbusStatusRender healthScenario).indicatorClass
        = ["status-indicator", "error"] ∧
    "error" ∈ classTokens (updateModbusStatusRender healthScenario).indicatorClass ∧
    (updateModbusStatusRender healthScenario).alert = some "포트 연결 실패: COM3 busy" := by
  refine ⟨?_, by decide, by decide, by decide⟩
  rintro ⟨av, ac, pa, sr, ⟨p, b, ns, ir⟩, pe, w, ed, m⟩
  cases av <;> cases ac <;> cases pa <;> cases sr <;> cases ir <;> rfl

/-- C2 counterexample: on a record with no address, quantity 5 and an
empty values array, the code renders the detail `", 수량: 5"` (a stray
leading `", "` and no values field), while the claim's reading —
exactly the present fields joined by `", "` — demands `"수량: 5, 값: []"`;
the two disagree, so the claim as stated is false. -/
theorem log_detail_claim_counterexample :
    (renderLogEntry (fun _ => "") logCounterexampleRecord).detail = some ", 수량: 5" ∧
    claimDetail logCounterexampleRecord = some "수량: 5, 값: []" ∧
    (renderLogEntry (fun _ => "") logCounterexampleRecord).detail
      ≠ claimDetail logCounterexampleRecord := by
  refine ⟨by decide, by decide, by decide⟩

/-- A string that starts with a nonempty literal is not empty. -/
theorem lit_append_ne_empty (p s : String) (hp : p.data ≠ []) : p ++ s ≠ "" := by
  intro he
  have hd : (p ++ s).data = "".data := congrArg String.data he
  rw [String.data_append] at hd
  have hz : "".data = ([] : List Char) := rfl
  rw [hz] at hd
  exact hp (List.append_eq_nil.mp hd).1

/-- The code's `detail` assembly agrees, record by record, with the
amended reading of the detail line. -/
theorem renderLogEntry_detail_eq (fmt : Int → String) (log : LogEntry) :
    (renderLogEntry fmt log).detail = amendedDetail log := by
  obtain ⟨et, sid, fc, fn, addr, qty, vals, err, suc, ts⟩ := log
  rcases addr with _ | a <;> rcases qty with _ | q <;>
    rcases vals with _ | vs <;> rcases err with _ | e <;>
    simp only [renderLogEntry, logDetail, amendedDetail] <;>
    split_ifs <;>
    simp_all only [String.empty_append, String.append_empty, String.append_assoc,
      String.join, List.map, List.foldl, List.append_nil, List.nil_append,
      List.cons_append, joinSep, ne_eq] <;>
    first
      | rfl
      | (exact absurd trivial (by assumption))
      | (exact absurd (by assumption) (lit_append_ne_empty _ _ (by decide)))

/-- C2 (amended): for every fetched log batch of at most 20 entries, an
empty batch renders the "no logs" placeholder; a non-empty batch renders
exactly the reversal of the per-record renders taken in server order;
and each record's detail line consists of the present-and-truthy
optional fields (address non-null, quantity nonzero, values nonempty,
error nonempty) in the fixed order address, quantity, values, error,
where the address chunk is bare and every later chunk is preceded by
`", "` — so the line begins with `", "` when the address is absent but a
later field renders — and the line is omitted when nothing renders. -/
theorem modbus_log_render_amended (fmt : Int → String) (logs : List LogEntry)
    (hlen : logs.length ≤ 20) :
    (logs = [] → updateModbusLogRender fmt (some logs) = .placeholder) ∧
    (logs ≠ [] → updateModbusLogRender fmt (some logs)
        = .entries ((logs.map (renderLogEntry fmt)).reverse)) ∧
    ∀ log : LogEntry, (renderLogEntry fmt log).detail = amendedDetail log := by
  refine ⟨?_, ?_, renderLogEntry_detail_eq fmt⟩
  · rintro rfl; rfl
  · intro h
    simp [updateModbusLogRender, List.length_pos.mpr h, List.map_reverse]

/-- Witness for the amended C2 theorem at a concrete two-entry batch. -/
theorem modbus_log_render_amended_witness :
    ([logWitnessRecord, logCounterexampleRecord] : List LogEntry).length ≤ 20 ∧
    ([logWitnessRecord, logCounterexampleRecord] : List LogEntry) ≠ [] ∧
    updateModbusLogRender (fun _ => "") (some [logWitnessRecord, logCounterexampleRecord])
      = .entries (([logWitnessRecord, logCounterexampleRecord].map
          (renderLogEntry (fun _ => ""))).reverse) :=
  ⟨by decide, by decide,
    (modbus_log_render_amended (fun _ => "")
      [logWitnessRecord, logCounterexampleRecord] (by decide)).2.1 (by decide)⟩

/-- C3 counterexample: the payload `{plant_id: "PLANT-2"}` parses as
JSON, so the poll reaches `updateUI`, which writes the plant id and the
update time before throwing on the missing `total_power`; the `catch`
swallows the throw, but the previously rendered state is *not* left
bit-for-bit unchanged — the plant-id label now reads the new value. -/
theorem status_failed_poll_counterexample :
    (updateUI badStatusPayload "10:00:01" uiStatePrior).2 = true ∧
    updateStatus (.ok badStatusPayload) "10:00:01" uiStatePrior ≠ uiStatePrior ∧
    (updateStatus (.ok badStatusPayload) "10:00:01" uiStatePrior).plantId
      = "발전소: PLANT-2" ∧
    uiStatePrior.plantId = "발전소: PLANT-1" ∧
    (updateStatus (.ok badStatusPayload) "10:00:01" uiStatePrior).totalPower
      = uiStatePrior.totalPower := by
  refine ⟨by decide, by decide, by decide, by decide, by decide⟩

/-- C3 (amended): a Status poll that fails at the transport level — the
fetch rejects or the body is not JSON — reaches the `catch` before any
DOM write, so the previously rendered plant summary and inverter cards
are left bit-for-bit unchanged.  (A payload that parses as JSON but is
not a well-formed snapshot instead throws inside `updateUI` after some
writes; see the counterexample.) -/
theorem status_transport_failure_leaves_ui_unchanged (e now : String) (s : UIState) :
    updateStatus (.error e) now s = s := rfl

/-- C4: every dispatched command shows, on `success=true`, the server
message as a success notification and triggers exactly one out-of-band
Status refresh; on `success=false`, the server message as an error
notification and no refresh; and on a transport failure, a generic
error notification carrying the failure's description and no refresh —
the handlers are total, so nothing propagates past them. -/
theorem command_dispatch_contract (index : Nat) (action : String) (percent : ℚ)
    (m d : String) :
    controlInverter index action (.resp true m)
      = { notification := m, notificationType := "success", statusRefreshes := 1 } ∧
    controlInverter index action (.resp false m)
      = { notification := m, notificationType := "error", statusRefreshes := 0 } ∧
    controlInverter index action (.transportError d)
      = { notification := "제어 오류: " ++ d, notificationType := "error",
          statusRefreshes := 0 } ∧
    setPControl index percent (.resp true m)
      = { notification := m, notificationType := "success", statusRefreshes := 1 } ∧
    setPControl index percent (.resp false m)
      = { notification := m, notificationType := "error", statusRefreshes := 0 } ∧
    setPControl index percent (.transportError d)
      = { notification := "P 제어 설정 오류: " ++ d, notificationType := "error",
          statusRefreshes := 0 } :=
  ⟨rfl, rfl, rfl, rfl, rfl, rfl⟩

/-- Both alert operations preserve the slot invariant. -/
theorem applyAlertOp_inv (s : AlertState) (op : AlertOp) (h : AlertInv s) :
    AlertInv (applyAlertOp s op) := by
  rcases op with m | _
  · right
    refine ⟨s.next, m, ?_, rfl⟩
    rcases h with ⟨hb, hs⟩ | ⟨id, m0, hb, hs⟩ <;>
      simp [applyAlertOp, showModbusAlert, hb, hs]
  · rcases h with ⟨hb, hs⟩ | ⟨id, m0, hb, hs⟩ <;>
      left <;> simp [applyAlertOp, hideModbusAlert, hb, hs]

/-- Every state reachable from the initial page state satisfies the
slot invariant. -/
theorem runAlertOps_inv (ops : List AlertOp) :
    AlertInv (runAlertOps ops initialAlertState) := by
  have key : ∀ (l : List AlertOp) (s : AlertState), AlertInv s → AlertInv (l.foldl applyAlertOp s) := by
    intro l
    induction l with
    | nil => exact fun s h => h
    | cons op rest ih => exact fun s h => ih _ (applyAlertOp_inv s op h)
  exact key ops initialAlertState (Or.inl ⟨rfl, rfl⟩)

/-- C5: at most one alert banner exists after any sequence of
alert-show / alert-hide operations from the initial page state, and two
successive shows leave exactly one banner bearing the second message
(the first show's banner is removed before the second is inserted). -/
theorem alert_banner_singleton (ops : List AlertOp) (m1 m2 : String) :
    (runAlertOps ops initialAlertState).banners.length ≤ 1 ∧
    (runAlertOps (ops ++ [.showOp m1, .showOp m2]) initialAlertState).banners.map Prod.snd
      = [m2] := by
  constructor
  · rcases runAlertOps_inv ops with ⟨hb, _⟩ | ⟨id, m, hb, _⟩ <;> simp [hb]
  · have hsplit : runAlertOps (ops ++ [.showOp m1, .showOp m2]) initialAlertState
        = applyAlertOp (applyAlertOp (runAlertOps ops initialAlertState) (.showOp m1))
            (.showOp m2) := by
      simp [runAlertOps, List.foldl_append]
    rw [hsplit]
    rcases runAlertOps_inv ops with ⟨hb, hs⟩ | ⟨id, m0, hb, hs⟩ <;>
      simp [applyAlertOp, showModbusAlert, hb, hs]

/-- C9: a transport failure of the Modbus health fetch does not leave
the alert state unchanged — the `catch` handler always shows the fixed
generic message, so after every failed health cycle (from any reachable
alert state) exactly one banner is present and it bears that message,
any previous banner having been replaced. -/
theorem modbus_fetch_failure_always_alerts (e : String) (ops : List AlertOp) :
    (updateModbusStatusAlert (.error e)
        (runAlertOps ops initialAlertState)).banners.map Prod.snd
      = [modbusFetchErrorMessage] := by
  rcases runAlertOps_inv ops with ⟨hb, hs⟩ | ⟨id, m0, hb, hs⟩ <;>
    simp [updateModbusStatusAlert, showModbusAlert, hb, hs]

/-- C6: a non-empty `hourly_data` of length N renders the last
`min(N, 24)` records, in original order, as exactly `min(N, 24)` rows;
an empty array renders the explicit "no data" placeholder; and the
thirty-record scenario renders the rows of records 7..30 in order. -/
theorem hourly_render_tail24 :
    (∀ l : List HourlyRecord, l ≠ [] →
      updateHourlyData (some l)
        = .rows ((l.drop (l.length - 24)).map renderHourlyItem) ∧
      ((l.drop (l.length - 24)).map renderHourlyItem).length = min l.length 24) ∧
    updateHourlyData (some []) = .placeholder ∧
    updateHourlyData (some hourly30) = .rows ((hourly30.drop 6).map renderHourlyItem) ∧
    (hourly30.drop 6).map HourlyRecord.hour
      = (List.range 24).map (fun i => Nat.repr (i + 7)) := by
  refine ⟨?_, rfl, by decide, by decide⟩
  intro l h
  constructor
  · simp [updateHourlyData, List.length_pos.mpr h]
  · simp [List.length_drop]
    omega

/-- Witness for C6 at the thirty-record scenario input. -/
theorem hourly_render_tail24_witness :
    hourly30 ≠ [] ∧
    (updateHourlyData (some hourly30)
        = .rows ((hourly30.drop (hourly30.length - 24)).map renderHourlyItem) ∧
      ((hourly30.drop (hourly30.length - 24)).map renderHourlyItem).length
        = min hourly30.length 24) :=
  ⟨by decide, hourly_render_tail24.1 hourly30 (by decide)⟩

/-- C8: a non-empty time-series response replaces the chart's labels
with time strings derived from each point's epoch-seconds timestamp and
its data with the `power_kw` values, redrawn with update mode `"none"`
(no transition animation); an empty or missing sequence, and a transport
failure, leave the chart untouched. -/
theorem chart_update_contract (fmt : Int → String) (points : List TimeSeriesPoint)
    (chart : ChartState) (e : String) (h : points ≠ []) :
    updateChart fmt (.ok (some points)) chart
      = { labels := points.map (fun item => fmt (item.timestamp * 1000))
          chartData := points.map (fun item => item.power_kw)
          lastUpdateMode := some "none" } ∧
    updateChart fmt (.ok (some [])) chart = chart ∧
    updateChart fmt (.ok none) chart = chart ∧
    updateChart fmt (.error e) chart = chart := by
  refine ⟨?_, rfl, rfl, rfl⟩
  simp [updateChart, List.length_pos.mpr h]

/-- Witness for C8 at a one-point series. -/
theorem chart_update_contract_witness :
    ([({ timestamp := 5, power_kw := mkRat 2 1 } : TimeSeriesPoint)] ≠ ([] : List TimeSeriesPoint)) ∧
    updateChart (fun t => toString t)
        (.ok (some [{ timestamp := 5, power_kw := mkRat 2 1 }]))
        { labels := [], chartData := [], lastUpdateMode := none }
      = { labels := [({ timestamp := 5, power_kw := mkRat 2 1 } : TimeSeriesPoint)].map
            (fun item => toString (item.timestamp * 1000))
          chartData := [({ timestamp := 5, power_kw := mkRat 2 1 } : TimeSeriesPoint)].map
            (fun item => item.power_kw)
          lastUpdateMode := some "none" } :=
  ⟨by decide,
    (chart_update_contract (fun t => toString t) [{ timestamp := 5, power_kw := mkRat 2 1 }]
      { labels := [], chartData := [], lastUpdateMode := none } "err" (by decide)).1⟩

/-- The card loop finishes cleanly iff it had nothing to do or the
remaining inverters fit in `pvGenerators` from the start index on. -/
theorem buildCardsGo_ok_iff (pvs : List PvState) (invs : List InverterState) (i : Nat) :
    (buildCardsGo (some pvs) invs i).2 = false ↔
      invs.length = 0 ∨ i + invs.length ≤ pvs.length := by
  induction invs generalizing i with
  | nil => simp [buildCardsGo]
  | cons inv rest ih =>
    simp only [buildCardsGo]
    rcases hp : pvs[i]? with _ | pv
    · have hle : pvs.length ≤ i := by
        by_contra hc
        push_neg at hc
        rw [List.getElem?_eq_getElem hc] at hp
        cases hp
      simp [List.length_cons]
      omega
    · have hlt : i < pvs.length := by
        by_contra hc
        push_neg at hc
        rw [List.getElem?_eq_none hc] at hp
        cases hp
      simp only [List.length_cons]
      rw [ih]
      omega

/-- The number of cards the loop inserts: one per inverter until either
list runs out. -/
theorem buildCardsGo_length (pvs : List PvState) (invs : List InverterState) (i : Nat) :
    (buildCardsGo (some pvs) invs i).1.length = min invs.length (pvs.length - i) := by
  induction invs generalizing i with
  | nil => simp [buildCardsGo]
  | cons inv rest ih =>
    simp only [buildCardsGo]
    rcases hp : pvs[i]? with _ | pv
    · have hle : pvs.length ≤ i := by
        by_contra hc
        push_neg at hc
        rw [List.getElem?_eq_getElem hc] at hp
        cases hp
      simp [List.length_cons]
      omega
    · have hlt : i < pvs.length := by
        by_contra hc
        push_neg at hc
        rw [List.getElem?_eq_none hc] at hp
        cases hp
      simp only [List.length_cons, List.length_nil]
      rw [ih]
      omega

/-- When every inverter has a partner, the card at position `j` is built
from `invs[j]` and `pvs[i+j]`. -/
theorem buildCardsGo_getElem (pvs : List PvState) (invs : List InverterState)
    (i j : Nat) (h : i + invs.length ≤ pvs.length) :
    (buildCardsGo (some pvs) invs i).1[j]? =
      match invs[j]? with
      | some inv =>
        match pvs[i + j]? with
        | some pv => some (createInverterCard inv pv (i + j))
        | none => none
      | none => none := by
  induction invs generalizing i j with
  | nil => simp [buildCardsGo]
  | cons inv rest ih =>
    have hlt : i < pvs.length := by
      simp only [List.length_cons] at h
      omega
    have hp : pvs[i]? = some (pvs.get ⟨i, hlt⟩) := by
      simp [List.getElem?_eq_getElem hlt]
    simp only [buildCardsGo, hp]
    cases j with
    | zero => simp [hp]
    | succ k =>
      have h2 : (i + 1) + rest.length ≤ pvs.length := by
        simp only [List.length_cons] at h
        omega
      have harith : i + (k + 1) = (i + 1) + k := by omega
      simp only [List.getElem?_cons_succ, harith]
      exact ih (i + 1) k h2

/-- C7: for every well-formed `PlantSnapshot` (positional correspondence:
equal-length arrays), the Status render completes without a throw, the
plant totals are the snapshot totals formatted with `toFixed 2`, the
card count equals `len(inverters)`, and the card at every index `j` is
built from `inverters[j]` and `pv_generators[j]` with the source's
`toFixed` precisions. -/
theorem status_render_well_formed (snap : PlantSnapshot) (now : String) (s : UIState)
    (hlen : snap.pv_generators.length = snap.inverters.length) :
    (updateUI (toStatusJson snap) now s).2 = false ∧
    (updateUI (toStatusJson snap) now s).1.plantId = "발전소: " ++ snap.plant_id ∧
    (updateUI (toStatusJson snap) now s).1.totalPower
      = toFixed 2 snap.total_power.total_active_power_kw ∧
    (updateUI (toStatusJson snap) now s).1.utilization
      = toFixed 2 snap.total_power.utilization_percent ∧
    (updateUI (toStatusJson snap) now s).1.reactivePower
      = toFixed 2 snap.total_power.total_reactive_power_kvar ∧
    (updateUI (toStatusJson snap) now s).1.ratedCapacity
      = toFixed 2 snap.total_capacity_mva ∧
    (updateUI (toStatusJson snap) now s).1.cards.length = snap.inverters.length ∧
    ∀ j : Nat, (updateUI (toStatusJson snap) now s).1.cards[j]? =
      match snap.inverters[j]? with
      | some inv =>
        match snap.pv_generators[j]? with
        | some pv => some (createInverterCard inv pv j)
        | none => none
      | none => none := by
  have hok : 0 + snap.inverters.length ≤ snap.pv_generators.length := by omega
  refine ⟨?_, rfl, rfl, rfl, rfl, rfl, ?_, ?_⟩
  · show (buildCardsGo (some snap.pv_generators) snap.inverters 0).2 = false
    rw [buildCardsGo_ok_iff]
    omega
  · show (buildCardsGo (some snap.pv_generators) snap.inverters 0).1.length = _
    rw [buildCardsGo_length]
    omega
  · intro j
    show (buildCardsGo (some snap.pv_generators) snap.inverters 0).1[j]? = _
    rw [buildCardsGo_getElem _ _ _ _ hok]
    simp

/-- Witness for C7 at the scenario snapshot: in particular
`total_active_power_kw = 123.456` renders as `"123.46"`. -/
theorem status_render_well_formed_witness :
    snapshotScenario.pv_generators.length = snapshotScenario.inverters.length ∧
    (updateUI (toStatusJson snapshotScenario) "12:00:00" uiStatePrior).1.totalPower
      = toFixed 2 snapshotScenario.total_power.total_active_power_kw ∧
    (updateUI (toStatusJson snapshotScenario) "12:00:00" uiStatePrior).1.totalPower
      = "123.46" ∧
    (updateUI (toStatusJson snapshotScenario) "12:00:00" uiStatePrior).1.cards.length
      = 1 :=
  ⟨rfl,
    (status_render_well_formed snapshotScenario "12:00:00" uiStatePrior rfl).2.2.1,
    by decide, by decide⟩

/-- C10: the card render reads `pv_generators[i]` for every inverter
index; it completes without dereferencing an undefined element iff
`len(pv_generators) ≥ len(inverters)`; under the equal-length
precondition it is total; and a shorter `pv_generators` makes it throw
partway, leaving exactly the first `len(pv_generators)` cards
inserted. -/
theorem inverter_cards_pv_bounds (invs : List InverterState) (pvs : List PvState) :
    ((updateInverterCards (some invs) (some pvs)).2 = false ↔ invs.length ≤ pvs.length) ∧
    (updateInverterCards (some invs) (some pvs)).1.length = min invs.length pvs.length ∧
    (pvs.length = invs.length → (updateInverterCards (some invs) (some pvs)).2 = false) ∧
    (pvs.length < invs.length →
      (updateInverterCards (some invs) (some pvs)).2 = true ∧
      (updateInverterCards (some invs) (some pvs)).1.length = pvs.length) := by
  have h1 := buildCardsGo_ok_iff pvs invs 0
  have h2 := buildCardsGo_length pvs invs 0
  simp only [updateInverterCards]
  refine ⟨by rw [h1]; omega, by rw [h2]; omega, ?_, ?_⟩
  · intro h
    rw [h1]
    omega
  · intro h
    constructor
    · rcases Bool.eq_false_or_eq_true ((buildCardsGo (some pvs) invs 0).2) with hb | hb
      · exact hb
      · exfalso
        have := h1.mp hb
        omega
    · rw [h2]
      omega

/-- Witness for C10: one inverter, an empty `pv_generators`. -/
theorem inverter_cards_pv_bounds_witness :
    ([] : List PvState).length < snapshotScenario.inverters.length ∧
    ((updateInverterCards (some snapshotScenario.inverters) (some [])).2 = true ∧
      (updateInverterCards (some snapshotScenario.inverters) (some [])).1.length
        = ([] : List PvState).length) :=
  ⟨by decide,
    (inverter_cards_pv_bounds snapshotScenario.inverters []).2.2.2 (by decide)⟩
